import Mathlib

/-!
Verification of the onboarding step validator of the deepagent repository.

The definitions below are a shallow embedding of src/agent/state.py and
src/agent/tools/onboarding.py.  Python dictionaries returned by the tools are
modelled as a record with optional fields, where a field value of none means
the corresponding key is absent from the returned dictionary.  Python string
normalization (str.lower then str.strip) is modelled with pyLower and
pyStrip, structural functions over the character list of a string.
-/

set_option maxRecDepth 4000

/-- Drop leading whitespace characters from a character list; the recursion
is structural so that concrete inputs evaluate in the kernel. -/
def dropWhitespace : List Char → List Char
  | [] => []
  | c :: cs => if c.isWhitespace then dropWhitespace cs else c :: cs

/-- Embedding of the Python method str.strip: remove leading and trailing
whitespace. -/
def pyStrip (s : String) : String :=
  String.mk ((dropWhitespace (dropWhitespace s.data).reverse).reverse)

/-- Embedding of the Python method str.lower (the inputs of interest are
ASCII). -/
def pyLower (s : String) : String :=
  String.mk (s.data.map Char.toLower)

/-- Embedding of the Python method str.upper (the inputs of interest are
ASCII). -/
def pyUpper (s : String) : String :=
  String.mk (s.data.map Char.toUpper)

/-- Embedding of the Python expression s.replace(underscore, space), used on
the availability string; the pattern is a single character, so a character
map suffices. -/
def pyUnderscoreToSpace (s : String) : String :=
  String.mk (s.data.map fun c => if c = '_' then ' ' else c)

/-- The seven onboarding steps, in order, from the OnboardingStep literal in
state.py. -/
inductive OnboardingStep where
  | intro
  | role_preference
  | trinity
  | experience
  | location
  | search_prefs
  | completed
  deriving DecidableEq, Repr

/-- Position of a step in the fixed forward order of the onboarding flow. -/
def stepIdx : OnboardingStep → Nat
  | .intro => 0
  | .role_preference => 1
  | .trinity => 2
  | .experience => 3
  | .location => 4
  | .search_prefs => 5
  | .completed => 6

/-- Onboarding sub-state, from class OnboardingState in state.py, with the
same field defaults. -/
structure OnboardingState where
  current_step : OnboardingStep := OnboardingStep.intro
  completed : Bool := false
  role_preference : Option String := none
  trinity : Option String := none
  years_experience : Option Int := none
  industries : List String := []
  location : Option String := none
  remote_preference : Option String := none
  target_compensation : Option String := none
  availability : Option String := none
  deriving DecidableEq, Repr

/-- User identity sub-state, from class UserState in state.py. -/
structure UserState where
  id : Option String := none
  email : Option String := none
  name : Option String := none
  profile_complete : Bool := false
  deriving DecidableEq, Repr

/-- Page context sub-state, from class PageContext in state.py. -/
structure PageContext where
  current_page : String := "/"
  page_type : Option String := none
  role_context : Option String := none
  deriving DecidableEq, Repr

/-- Job search sub-state, from class JobSearchState in state.py. -/
structure JobSearchState where
  last_search_query : Option String := none
  saved_jobs : List String := []
  liked_jobs : List String := []
  applied_jobs : List String := []
  deriving DecidableEq, Repr

/-- Coaching sub-state, from class CoachingState in state.py. -/
structure CoachingState where
  interested_in_coaching : Option Bool := none
  coach_connected : Bool := false
  scheduled_sessions : List String := []
  deriving DecidableEq, Repr

/-- Root agent state, from class AgentState in state.py.  Fields inherited
from the external CopilotKitState base class are outside this repository and
are not modelled. -/
structure AgentState where
  user : UserState := {}
  onboarding : OnboardingState := {}
  page_context : PageContext := {}
  job_search : JobSearchState := {}
  coaching : CoachingState := {}
  active_agent : Option String := none
  deriving DecidableEq, Repr

/-- The initial agent state: every sub-state at its Pydantic default. -/
def initialAgentState : AgentState := {}

/-- The nested profile dictionary assembled by complete_onboarding. -/
structure ProfileSummary where
  role : Option String
  engagement_type : Option String
  experience_years : Option Int
  experience_industries : List String
  location_base : Option String
  location_remote_preference : Option String
  search_compensation : Option String
  search_availability : Option String
  deriving DecidableEq, Repr

/-- The state snapshot dictionary included in every successful result. -/
structure StateSnapshot where
  onboarding : OnboardingState
  user : Option UserState := none
  deriving DecidableEq, Repr

/-- The dictionary returned by each onboarding tool.  A field value of none
models an absent dictionary key; the fields cover every key appearing in any
return statement of onboarding.py. -/
structure ToolResult where
  success : Bool
  message : Option String := none
  error : Option String := none
  valid_roles : Option (List String) := none
  valid_types : Option (List String) := none
  valid_preferences : Option (List String) := none
  role_preference : Option String := none
  trinity : Option String := none
  years_experience : Option Int := none
  industries : Option (List String) := none
  location : Option String := none
  remote_preference : Option String := none
  target_compensation : Option (Option String) := none
  availability : Option String := none
  next_step : Option String := none
  profile_summary : Option ProfileSummary := none
  onboarding_completed : Option Bool := none
  state_snapshot : Option StateSnapshot := none
  deriving DecidableEq, Repr

/-- The nine valid role values, from VALID_ROLES in onboarding.py. -/
def VALID_ROLES : List String :=
  ["cto", "cfo", "cmo", "coo", "cro", "cpo", "chro", "ciso", "other"]

/-- The four valid engagement types, from VALID_TRINITY in onboarding.py. -/
def VALID_TRINITY : List String :=
  ["fractional", "interim", "advisory", "all"]

/-- The four valid remote preferences, from VALID_REMOTE_PREFS in
onboarding.py. -/
def VALID_REMOTE_PREFS : List String :=
  ["remote", "hybrid", "onsite", "flexible"]

/-- Embedding of confirm_role_preference from onboarding.py.  Returns the
result dictionary together with the (possibly mutated) agent state. -/
def confirm_role_preference (role : String) (state : AgentState) :
    ToolResult × AgentState :=
  let role_lower := pyStrip (pyLower role)
  if role_lower ∉ VALID_ROLES then
    ({ success := false
       error := some ("Invalid role. Valid options: " ++
         String.intercalate ", " VALID_ROLES)
       valid_roles := some VALID_ROLES }, state)
  else
    let ob := { state.onboarding with
      role_preference := some role_lower
      current_step := OnboardingStep.trinity }
    ({ success := true
       message := some ("Great! I\x27ve noted that you\x27re looking for " ++
         pyUpper role ++ " roles.")
       role_preference := some role_lower
       next_step := some "trinity"
       state_snapshot := some { onboarding := ob } },
     { state with onboarding := ob })

/-- Embedding of confirm_trinity from onboarding.py. -/
def confirm_trinity (engagement_type : String) (state : AgentState) :
    ToolResult × AgentState :=
  let engagement_lower := pyStrip (pyLower engagement_type)
  if engagement_lower ∉ VALID_TRINITY then
    ({ success := false
       error := some ("Invalid engagement type. Valid options: " ++
         String.intercalate ", " VALID_TRINITY)
       valid_types := some VALID_TRINITY }, state)
  else
    let ob := { state.onboarding with
      trinity := some engagement_lower
      current_step := OnboardingStep.experience }
    ({ success := true
       message := some ("Perfect! You\x27re interested in " ++
         engagement_lower ++ " roles.")
       trinity := some engagement_lower
       next_step := some "experience"
       state_snapshot := some { onboarding := ob } },
     { state with onboarding := ob })

/-- Embedding of confirm_experience from onboarding.py. -/
def confirm_experience (years : Int) (industries : List String)
    (state : AgentState) : ToolResult × AgentState :=
  if years < 0 then
    ({ success := false
       error := some "Years of experience must be a positive number" }, state)
  else
    let ob := { state.onboarding with
      years_experience := some years
      industries := industries
      current_step := OnboardingStep.location }
    ({ success := true
       message := some ("Excellent! " ++ toString years ++
         " years of experience across " ++
         String.intercalate ", " industries ++ ".")
       years_experience := some years
       industries := some industries
       next_step := some "location"
       state_snapshot := some { onboarding := ob } },
     { state with onboarding := ob })

/-- Embedding of confirm_location from onboarding.py. -/
def confirm_location (location : String) (remote_preference : String)
    (state : AgentState) : ToolResult × AgentState :=
  let remote_lower := pyStrip (pyLower remote_preference)
  if remote_lower ∉ VALID_REMOTE_PREFS then
    ({ success := false
       error := some ("Invalid remote preference. Valid options: " ++
         String.intercalate ", " VALID_REMOTE_PREFS)
       valid_preferences := some VALID_REMOTE_PREFS }, state)
  else
    let ob := { state.onboarding with
      location := some location
      remote_preference := some remote_lower
      current_step := OnboardingStep.search_prefs }
    ({ success := true
       message := some ("Got it! Based in " ++ location ++ " with " ++
         remote_lower ++ " work preference.")
       location := some location
       remote_preference := some remote_lower
       next_step := some "search_prefs"
       state_snapshot := some { onboarding := ob } },
     { state with onboarding := ob })

/-- Embedding of confirm_search_prefs from onboarding.py.  The message uses
Python truthiness for target_compensation: both None and the empty string
fall back to the default wording. -/
def confirm_search_prefs (target_compensation : Option String)
    (availability : String) (state : AgentState) : ToolResult × AgentState :=
  let ob := { state.onboarding with
    target_compensation := target_compensation
    availability := some availability
    current_step := OnboardingStep.completed }
  let comp_text :=
    match target_compensation with
    | some s => if s = "" then "competitive compensation" else s
    | none => "competitive compensation"
  ({ success := true
     message := some ("Perfect! You\x27re looking for " ++ comp_text ++
       " and can start " ++ (pyUnderscoreToSpace availability) ++ ".")
     target_compensation := some target_compensation
     availability := some availability
     next_step := some "completed"
     state_snapshot := some { onboarding := ob } },
   { state with onboarding := ob })

/-- Embedding of complete_onboarding from onboarding.py. -/
def complete_onboarding (state : AgentState) : ToolResult × AgentState :=
  let ob := { state.onboarding with
    completed := true
    current_step := OnboardingStep.completed }
  let usr := { state.user with profile_complete := true }
  let summary : ProfileSummary :=
    { role := ob.role_preference
      engagement_type := ob.trinity
      experience_years := ob.years_experience
      experience_industries := ob.industries
      location_base := ob.location
      location_remote_preference := ob.remote_preference
      search_compensation := ob.target_compensation
      search_availability := ob.availability }
  ({ success := true
     message := some ("Your profile is complete! " ++
       "I can now help you find matching opportunities.")
     profile_summary := some summary
     onboarding_completed := some true
     state_snapshot := some { onboarding := ob, user := some usr } },
   { state with onboarding := ob, user := usr })

/-- A single invocation of one of the six onboarding tools, with its
arguments. -/
inductive Call where
  | role (r : String)
  | trin (e : String)
  | exper (y : Int) (inds : List String)
  | loc (l : String) (rp : String)
  | search (tc : Option String) (av : String)
  | complete
  deriving DecidableEq, Repr

/-- Dispatch a call to the corresponding tool. -/
def applyCall : Call → AgentState → ToolResult × AgentState
  | .role r, s => confirm_role_preference r s
  | .trin e, s => confirm_trinity e s
  | .exper y inds, s => confirm_experience y inds s
  | .loc l rp, s => confirm_location l rp s
  | .search tc av, s => confirm_search_prefs tc av s
  | .complete, s => complete_onboarding s

/-- The step a successful run of each tool writes into current_step. -/
def targetStep : Call → OnboardingStep
  | .role _ => OnboardingStep.trinity
  | .trin _ => OnboardingStep.experience
  | .exper _ _ => OnboardingStep.location
  | .loc _ _ => OnboardingStep.search_prefs
  | .search _ _ => OnboardingStep.completed
  | .complete => OnboardingStep.completed

/-- Run a sequence of calls, threading the state. -/
def runCalls (s : AgentState) : List Call → AgentState
  | [] => s
  | c :: cs => runCalls (applyCall c s).2 cs

/-- A call sequence is in order from a state when every call is issued while
current_step is not past the step that the call would write. -/
def inOrder (s : AgentState) : List Call → Bool
  | [] => true
  | c :: cs =>
      decide (stepIdx s.onboarding.current_step ≤ stepIdx (targetStep c)) &&
      inOrder (applyCall c s).2 cs

/-- String containment test: the needle occurs contiguously in the
haystack. -/
def strContains (hay needle : String) : Bool :=
  (List.range (hay.data.length + 1)).any fun i =>
    needle.data.isPrefixOf (hay.data.drop i)

/-- A state transition preserves the non-onboarding, non-user parts of the
agent state. -/
def framePreserved (s2 s1 : AgentState) : Prop :=
  s2.page_context = s1.page_context ∧
  s2.job_search = s1.job_search ∧
  s2.coaching = s1.coaching ∧
  s2.active_agent = s1.active_agent

lemma applyCall_fail_frame (c : Call) (s : AgentState)
    (h : (applyCall c s).1.success = false) : (applyCall c s).2 = s := by
  cases c with
  | role r =>
      by_cases hv : pyStrip (pyLower r) ∈ VALID_ROLES <;>
        simp [applyCall, confirm_role_preference, hv] at h ⊢
  | trin e =>
      by_cases hv : pyStrip (pyLower e) ∈ VALID_TRINITY <;>
        simp [applyCall, confirm_trinity, hv] at h ⊢
  | exper y inds =>
      by_cases hv : y < 0 <;>
        simp [applyCall, confirm_experience, hv] at h ⊢
  | loc l rp =>
      by_cases hv : pyStrip (pyLower rp) ∈ VALID_REMOTE_PREFS <;>
        simp [applyCall, confirm_location, hv] at h ⊢
  | search tc av => simp [applyCall, confirm_search_prefs] at h
  | complete => simp [applyCall, complete_onboarding] at h

lemma applyCall_success_step (c : Call) (s : AgentState)
    (h : (applyCall c s).1.success = true) :
    (applyCall c s).2.onboarding.current_step = targetStep c := by
  cases c with
  | role r =>
      by_cases hv : pyStrip (pyLower r) ∈ VALID_ROLES <;>
        simp [applyCall, confirm_role_preference, targetStep, hv] at h ⊢
  | trin e =>
      by_cases hv : pyStrip (pyLower e) ∈ VALID_TRINITY <;>
        simp [applyCall, confirm_trinity, targetStep, hv] at h ⊢
  | exper y inds =>
      by_cases hv : y < 0 <;>
        simp [applyCall, confirm_experience, targetStep, hv] at h ⊢
  | loc l rp =>
      by_cases hv : pyStrip (pyLower rp) ∈ VALID_REMOTE_PREFS <;>
        simp [applyCall, confirm_location, targetStep, hv] at h ⊢
  | search tc av => simp [applyCall, confirm_search_prefs, targetStep]
  | complete => simp [applyCall, complete_onboarding, targetStep]

/-- Claim C1, counterexample: the claim that current_step never moves to an
earlier step under arbitrary call sequences is false.  From the initial
state, a successful confirm_search_prefs call sets current_step to
completed, and a subsequent successful confirm_role_preference call moves it
back to trinity, an earlier step. -/
theorem C1_counterexample :
    (confirm_role_preference "cto"
        (confirm_search_prefs (some "open") "immediately"
          initialAgentState).2).1.success = true ∧
    stepIdx (confirm_role_preference "cto"
        (confirm_search_prefs (some "open") "immediately"
          initialAgentState).2).2.onboarding.current_step <
      stepIdx (confirm_search_prefs (some "open") "immediately"
          initialAgentState).2.onboarding.current_step := by
  decide

/-- Claim C1, amended: current_step changes only on a call whose validation
succeeds, and a successful call always writes the fixed target step of that
operation; consequently, along any call sequence in which each call is
issued while current_step is not past that call's target step, current_step
never moves backward.  Arbitrary sequences can move it backward, since the
validator enforces no cross-call ordering. -/
theorem C1_amended_theorem :
    (∀ (c : Call) (s : AgentState),
        (applyCall c s).1.success = false → (applyCall c s).2 = s) ∧
    (∀ (c : Call) (s : AgentState),
        (applyCall c s).1.success = true →
          (applyCall c s).2.onboarding.current_step = targetStep c) ∧
    (∀ (cs : List Call) (s : AgentState),
        inOrder s cs = true →
          stepIdx s.onboarding.current_step ≤
            stepIdx (runCalls s cs).onboarding.current_step) := by
  refine ⟨applyCall_fail_frame, applyCall_success_step, ?_⟩
  intro cs
  induction cs with
  | nil => intro s _; exact le_refl _
  | cons c cs ih =>
      intro s h
      simp only [inOrder, Bool.and_eq_true, decide_eq_true_eq] at h
      obtain ⟨h1, h2⟩ := h
      refine le_trans ?_ (ih _ h2)
      rcases hs : (applyCall c s).1.success with _ | _
      · rw [applyCall_fail_frame c s hs]
      · rw [applyCall_success_step c s hs]; exact h1

/-- Claim C1, witness for the amended theorem: an invalid role leaves the
state unchanged, a valid role writes the trinity step, and the two-call
in-order sequence role then trinity never decreases the step index. -/
theorem C1_witness :
    ((applyCall (Call.role "xyz") initialAgentState).2 = initialAgentState) ∧
    ((applyCall (Call.role "cto")
        initialAgentState).2.onboarding.current_step =
      targetStep (Call.role "cto")) ∧
    (stepIdx initialAgentState.onboarding.current_step ≤
      stepIdx (runCalls initialAgentState
        [Call.role "cto", Call.trin "all"]).onboarding.current_step) :=
  ⟨C1_amended_theorem.1 (Call.role "xyz") initialAgentState (by decide),
   C1_amended_theorem.2.1 (Call.role "cto") initialAgentState (by decide),
   C1_amended_theorem.2.2 [Call.role "cto", Call.trin "all"]
     initialAgentState (by decide)⟩

/-- Claim C2: on every failing input of the four fallible operations (role
outside the 9-value set after normalization, engagement type outside the
4-value set, years below zero, remote preference outside the 4-value set)
the result has success false and no next_step key, and the whole agent
state, in particular every onboarding field, is unchanged. -/
theorem C2_failure_is_pure :
    (∀ (role : String) (s : AgentState),
        pyStrip (pyLower role) ∉ VALID_ROLES →
          (confirm_role_preference role s).1.success = false ∧
          (confirm_role_preference role s).1.next_step = none ∧
          (confirm_role_preference role s).2 = s) ∧
    (∀ (e : String) (s : AgentState),
        pyStrip (pyLower e) ∉ VALID_TRINITY →
          (confirm_trinity e s).1.success = false ∧
          (confirm_trinity e s).1.next_step = none ∧
          (confirm_trinity e s).2 = s) ∧
    (∀ (y : Int) (inds : List String) (s : AgentState),
        y < 0 →
          (confirm_experience y inds s).1.success = false ∧
          (confirm_experience y inds s).1.next_step = none ∧
          (confirm_experience y inds s).2 = s) ∧
    (∀ (l rp : String) (s : AgentState),
        pyStrip (pyLower rp) ∉ VALID_REMOTE_PREFS →
          (confirm_location l rp s).1.success = false ∧
          (confirm_location l rp s).1.next_step = none ∧
          (confirm_location l rp s).2 = s) := by
  refine ⟨?_, ?_, ?_, ?_⟩ <;> intros <;>
    simp_all [confirm_role_preference, confirm_trinity, confirm_experience,
      confirm_location]

/-- Claim C2, witness: concrete failing inputs for each of the four fallible
operations. -/
theorem C2_witness :
    ((confirm_role_preference " Xyz " initialAgentState).1.success = false ∧
      (confirm_role_preference " Xyz " initialAgentState).1.next_step = none ∧
      (confirm_role_preference " Xyz " initialAgentState).2 =
        initialAgentState) ∧
    ((confirm_trinity "permanent" initialAgentState).1.success = false ∧
      (confirm_trinity "permanent" initialAgentState).1.next_step = none ∧
      (confirm_trinity "permanent" initialAgentState).2 = initialAgentState) ∧
    ((confirm_experience (-3) [] initialAgentState).1.success = false ∧
      (confirm_experience (-3) [] initialAgentState).1.next_step = none ∧
      (confirm_experience (-3) [] initialAgentState).2 = initialAgentState) ∧
    ((confirm_location "Austin, TX" "mars" initialAgentState).1.success =
        false ∧
      (confirm_location "Austin, TX" "mars" initialAgentState).1.next_step =
        none ∧
      (confirm_location "Austin, TX" "mars" initialAgentState).2 =
        initialAgentState) :=
  ⟨C2_failure_is_pure.1 " Xyz " initialAgentState (by decide),
   C2_failure_is_pure.2.1 "permanent" initialAgentState (by decide),
   C2_failure_is_pure.2.2.1 (-3) [] initialAgentState (by decide),
   C2_failure_is_pure.2.2.2 "Austin, TX" "mars" initialAgentState
     (by decide)⟩

/-- Claim C3: inputs that agree after Python normalization (lowercase, then
strip of leading and trailing whitespace) are interchangeable for each
enumerated field: same success flag, same normalized field value in the
result, and same next_step, with the other arguments and the state held
equal. -/
theorem C3_normalization_insensitive :
    (∀ (s1 s2 : String) (st : AgentState),
        pyStrip (pyLower s1) = pyStrip (pyLower s2) →
          (confirm_role_preference s1 st).1.success =
            (confirm_role_preference s2 st).1.success ∧
          (confirm_role_preference s1 st).1.role_preference =
            (confirm_role_preference s2 st).1.role_preference ∧
          (confirm_role_preference s1 st).1.next_step =
            (confirm_role_preference s2 st).1.next_step) ∧
    (∀ (s1 s2 : String) (st : AgentState),
        pyStrip (pyLower s1) = pyStrip (pyLower s2) →
          (confirm_trinity s1 st).1.success =
            (confirm_trinity s2 st).1.success ∧
          (confirm_trinity s1 st).1.trinity =
            (confirm_trinity s2 st).1.trinity ∧
          (confirm_trinity s1 st).1.next_step =
            (confirm_trinity s2 st).1.next_step) ∧
    (∀ (l s1 s2 : String) (st : AgentState),
        pyStrip (pyLower s1) = pyStrip (pyLower s2) →
          (confirm_location l s1 st).1.success =
            (confirm_location l s2 st).1.success ∧
          (confirm_location l s1 st).1.remote_preference =
            (confirm_location l s2 st).1.remote_preference ∧
          (confirm_location l s1 st).1.next_step =
            (confirm_location l s2 st).1.next_step) := by
  refine ⟨?_, ?_, ?_⟩
  · intro s1 s2 st h
    by_cases hv : pyStrip (pyLower s2) ∈ VALID_ROLES <;>
      simp [confirm_role_preference, h, hv]
  · intro s1 s2 st h
    by_cases hv : pyStrip (pyLower s2) ∈ VALID_TRINITY <;>
      simp [confirm_trinity, h, hv]
  · intro l s1 s2 st h
    by_cases hv : pyStrip (pyLower s2) ∈ VALID_REMOTE_PREFS <;>
      simp [confirm_location, h, hv]

/-- Claim C3, witness: a padded upper-case variant and the plain lower-case
value give the same success flag, normalized field and next_step for each of
the three enumerated fields. -/
theorem C3_witness :
    ((confirm_role_preference " CTO " initialAgentState).1.success =
        (confirm_role_preference "cto" initialAgentState).1.success ∧
      (confirm_role_preference " CTO " initialAgentState).1.role_preference =
        (confirm_role_preference "cto" initialAgentState).1.role_preference ∧
      (confirm_role_preference " CTO " initialAgentState).1.next_step =
        (confirm_role_preference "cto" initialAgentState).1.next_step) ∧
    ((confirm_trinity " Fractional " initialAgentState).1.success =
        (confirm_trinity "fractional" initialAgentState).1.success ∧
      (confirm_trinity " Fractional " initialAgentState).1.trinity =
        (confirm_trinity "fractional" initialAgentState).1.trinity ∧
      (confirm_trinity " Fractional " initialAgentState).1.next_step =
        (confirm_trinity "fractional" initialAgentState).1.next_step) ∧
    ((confirm_location "Austin" " Hybrid " initialAgentState).1.success =
        (confirm_location "Austin" "hybrid" initialAgentState).1.success ∧
      (confirm_location "Austin" " Hybrid "
          initialAgentState).1.remote_preference =
        (confirm_location "Austin" "hybrid"
          initialAgentState).1.remote_preference ∧
      (confirm_location "Austin" " Hybrid " initialAgentState).1.next_step =
        (confirm_location "Austin" "hybrid" initialAgentState).1.next_step) :=
  ⟨C3_normalization_insensitive.1 " CTO " "cto" initialAgentState (by decide),
   C3_normalization_insensitive.2.1 " Fractional " "fractional"
     initialAgentState (by decide),
   C3_normalization_insensitive.2.2 "Austin" " Hybrid " "hybrid"
     initialAgentState (by decide)⟩

/-- Claim C4, counterexample: the failing result of confirm_role_preference
does not echo the offending input back.  Two different invalid roles produce
byte-for-byte identical results, and the input xyz occurs in no string of
its own failing result: not in the error message, and in no other field. -/
theorem C4_counterexample :
    (confirm_role_preference "xyz" initialAgentState).1 =
      (confirm_role_preference "uvw" initialAgentState).1 ∧
    strContains
      ((confirm_role_preference "xyz" initialAgentState).1.error.getD "")
      "xyz" = false ∧
    (confirm_role_preference "xyz" initialAgentState).1.valid_roles =
      some VALID_ROLES := by
  decide

/-- Claim C4, amended: for every role string whose normalization is not in
the 9-value role set, confirm_role_preference fails with a result carrying
success false, a fixed error message listing the full set of valid role
values, and the valid_roles list itself; the offending input is not echoed
back in the result, which is the same for every invalid input. -/
theorem C4_amended_theorem (role : String) (st : AgentState)
    (h : pyStrip (pyLower role) ∉ VALID_ROLES) :
    (confirm_role_preference role st).1 =
      { success := false
        error := some ("Invalid role. Valid options: " ++
          String.intercalate ", " VALID_ROLES)
        valid_roles := some VALID_ROLES } := by
  simp [confirm_role_preference, h]

/-- Claim C4, witness: the amended theorem applied to the invalid role
xyz. -/
theorem C4_witness :
    (confirm_role_preference "xyz" initialAgentState).1 =
      { success := false
        error := some ("Invalid role. Valid options: " ++
          String.intercalate ", " VALID_ROLES)
        valid_roles := some VALID_ROLES } :=
  C4_amended_theorem "xyz" initialAgentState (by decide)

/-- Claim C5, counterexample: the failing result of confirm_experience for
years below zero carries an error message but no allowed-value set: all
three valid-set fields are absent from the result. -/
theorem C5_counterexample :
    (confirm_experience (-3) [] initialAgentState).1.success = false ∧
    (confirm_experience (-3) [] initialAgentState).1.error =
      some "Years of experience must be a positive number" ∧
    (confirm_experience (-3) [] initialAgentState).1.valid_roles = none ∧
    (confirm_experience (-3) [] initialAgentState).1.valid_types = none ∧
    (confirm_experience (-3) [] initialAgentState).1.valid_preferences =
      none := by
  decide

/-- Claim C5, amended: every validator returns a normal result on failing
input (the embedding is a total function) with success false and a
human-readable error message; the three enum validators additionally carry
the allowed-value set of the failed field, but the range failure of
confirm_experience carries only the error message and no allowed-value
set. -/
theorem C5_amended_theorem :
    (∀ (role : String) (s : AgentState),
        pyStrip (pyLower role) ∉ VALID_ROLES →
          (confirm_role_preference role s).1.success = false ∧
          (confirm_role_preference role s).1.error =
            some ("Invalid role. Valid options: " ++
              String.intercalate ", " VALID_ROLES) ∧
          (confirm_role_preference role s).1.valid_roles =
            some VALID_ROLES) ∧
    (∀ (e : String) (s : AgentState),
        pyStrip (pyLower e) ∉ VALID_TRINITY →
          (confirm_trinity e s).1.success = false ∧
          (confirm_trinity e s).1.error =
            some ("Invalid engagement type. Valid options: " ++
              String.intercalate ", " VALID_TRINITY) ∧
          (confirm_trinity e s).1.valid_types = some VALID_TRINITY) ∧
    (∀ (l rp : String) (s : AgentState),
        pyStrip (pyLower rp) ∉ VALID_REMOTE_PREFS →
          (confirm_location l rp s).1.success = false ∧
          (confirm_location l rp s).1.error =
            some ("Invalid remote preference. Valid options: " ++
              String.intercalate ", " VALID_REMOTE_PREFS) ∧
          (confirm_location l rp s).1.valid_preferences =
            some VALID_REMOTE_PREFS) ∧
    (∀ (y : Int) (inds : List String) (s : AgentState),
        y < 0 →
          (confirm_experience y inds s).1.success = false ∧
          (confirm_experience y inds s).1.error =
            some "Years of experience must be a positive number" ∧
          (confirm_experience y inds s).1.valid_roles = none ∧
          (confirm_experience y inds s).1.valid_types = none ∧
          (confirm_experience y inds s).1.valid_preferences = none) := by
  refine ⟨?_, ?_, ?_, ?_⟩ <;> intros <;>
    simp_all [confirm_role_preference, confirm_trinity, confirm_location,
      confirm_experience]

/-- Claim C5, witness: concrete failing inputs for all four validators. -/
theorem C5_witness :
    ((confirm_role_preference "ceo" initialAgentState).1.success = false ∧
      (confirm_role_preference "ceo" initialAgentState).1.error =
        some ("Invalid role. Valid options: " ++
          String.intercalate ", " VALID_ROLES) ∧
      (confirm_role_preference "ceo" initialAgentState).1.valid_roles =
        some VALID_ROLES) ∧
    ((confirm_trinity "permanent" initialAgentState).1.success = false ∧
      (confirm_trinity "permanent" initialAgentState).1.error =
        some ("Invalid engagement type. Valid options: " ++
          String.intercalate ", " VALID_TRINITY) ∧
      (confirm_trinity "permanent" initialAgentState).1.valid_types =
        some VALID_TRINITY) ∧
    ((confirm_location "Paris" "nomad" initialAgentState).1.success = false ∧
      (confirm_location "Paris" "nomad" initialAgentState).1.error =
        some ("Invalid remote preference. Valid options: " ++
          String.intercalate ", " VALID_REMOTE_PREFS) ∧
      (confirm_location "Paris" "nomad" initialAgentState).1.valid_preferences
        = some VALID_REMOTE_PREFS) ∧
    ((confirm_experience (-1) ["fintech"] initialAgentState).1.success =
        false ∧
      (confirm_experience (-1) ["fintech"] initialAgentState).1.error =
        some "Years of experience must be a positive number" ∧
      (confirm_experience (-1) ["fintech"] initialAgentState).1.valid_roles =
        none ∧
      (confirm_experience (-1) ["fintech"] initialAgentState).1.valid_types =
        none ∧
      (confirm_experience (-1) ["fintech"]
        initialAgentState).1.valid_preferences = none) :=
  ⟨C5_amended_theorem.1 "ceo" initialAgentState (by decide),
   C5_amended_theorem.2.1 "permanent" initialAgentState (by decide),
   C5_amended_theorem.2.2.1 "Paris" "nomad" initialAgentState (by decide),
   C5_amended_theorem.2.2.2 (-1) ["fintech"] initialAgentState (by decide)⟩

/-- Claim C6: confirm_experience rejects negative years with success false,
and for non-negative years succeeds, echoing years and the industries list
unchanged, with next_step location. -/
theorem C6_experience_spec (years : Int) (industries : List String)
    (s : AgentState) :
    (years < 0 → (confirm_experience years industries s).1.success = false) ∧
    (0 ≤ years →
      (confirm_experience years industries s).1.success = true ∧
      (confirm_experience years industries s).1.years_experience =
        some years ∧
      (confirm_experience years industries s).1.industries =
        some industries ∧
      (confirm_experience years industries s).1.next_step =
        some "location") := by
  constructor
  · intro h; simp [confirm_experience, h]
  · intro h; simp [confirm_experience, not_lt.mpr h]

/-- Claim C6, witness: years minus three fails, years twelve succeeds with
the industries list echoed unchanged, empty list included. -/
theorem C6_witness :
    ((confirm_experience (-3) [] initialAgentState).1.success = false) ∧
    ((confirm_experience 12 ["fintech", "saas"]
        initialAgentState).1.success = true ∧
      (confirm_experience 12 ["fintech", "saas"]
        initialAgentState).1.years_experience = some 12 ∧
      (confirm_experience 12 ["fintech", "saas"]
        initialAgentState).1.industries = some ["fintech", "saas"] ∧
      (confirm_experience 12 ["fintech", "saas"]
        initialAgentState).1.next_step = some "location") :=
  ⟨(C6_experience_spec (-3) [] initialAgentState).1 (by decide),
   (C6_experience_spec 12 ["fintech", "saas"] initialAgentState).2
     (by decide)⟩

/-- First call of the sequential scenario of the spec. -/
def scenario1 : ToolResult × AgentState :=
  confirm_role_preference "CTO" initialAgentState

/-- Second call of the sequential scenario. -/
def scenario2 : ToolResult × AgentState :=
  confirm_trinity "Fractional" scenario1.2

/-- Third call of the sequential scenario. -/
def scenario3 : ToolResult × AgentState :=
  confirm_experience 12 ["fintech", "saas"] scenario2.2

/-- Fourth call of the sequential scenario. -/
def scenario4 : ToolResult × AgentState :=
  confirm_location "Austin, TX" "Hybrid" scenario3.2

/-- Fifth call of the sequential scenario. -/
def scenario5 : ToolResult × AgentState :=
  confirm_search_prefs (some "$200-300k") "2_weeks" scenario4.2

/-- Final call of the sequential scenario. -/
def scenario6 : ToolResult × AgentState :=
  complete_onboarding scenario5.2

/-- Claim C7: the concrete six-call scenario from the initial state
succeeds at every step with the stated result fields. -/
theorem C7_valid_scenario :
    scenario1.1.success = true ∧
      scenario1.1.role_preference = some "cto" ∧
      scenario1.1.next_step = some "trinity" ∧
    scenario2.1.success = true ∧
      scenario2.1.trinity = some "fractional" ∧
      scenario2.1.next_step = some "experience" ∧
    scenario3.1.success = true ∧
      scenario3.1.years_experience = some 12 ∧
      scenario3.1.next_step = some "location" ∧
    scenario4.1.success = true ∧
      scenario4.1.remote_preference = some "hybrid" ∧
      scenario4.1.next_step = some "search_prefs" ∧
    scenario5.1.success = true ∧
      scenario5.1.next_step = some "completed" ∧
    scenario6.1.success = true ∧
      scenario6.1.onboarding_completed = some true := by
  decide

/-- Claim C8: every step operation is idempotent: re-running the same call
with the same arguments from the state the first run produced yields an
identical result value and leaves the state exactly as after the first
run. -/
theorem C8_idempotent (c : Call) (s : AgentState) :
    (applyCall c (applyCall c s).2).1 = (applyCall c s).1 ∧
    (applyCall c (applyCall c s).2).2 = (applyCall c s).2 := by
  cases c with
  | role r =>
      by_cases hv : pyStrip (pyLower r) ∈ VALID_ROLES <;>
        simp [applyCall, confirm_role_preference, hv]
  | trin e =>
      by_cases hv : pyStrip (pyLower e) ∈ VALID_TRINITY <;>
        simp [applyCall, confirm_trinity, hv]
  | exper y inds =>
      by_cases hv : y < 0 <;>
        simp [applyCall, confirm_experience, hv]
  | loc l rp =>
      by_cases hv : pyStrip (pyLower rp) ∈ VALID_REMOTE_PREFS <;>
        simp [applyCall, confirm_location, hv]
  | search tc av => simp [applyCall, confirm_search_prefs]
  | complete => simp [applyCall, complete_onboarding]

/-- Claim C9: the five confirm operations change nothing outside the
onboarding sub-state, and complete_onboarding changes nothing outside the
onboarding sub-state and the single user field profile_complete, which it
sets to true. -/
theorem C9_frame_conditions :
    (∀ (r : String) (s : AgentState),
        framePreserved (confirm_role_preference r s).2 s ∧
        (confirm_role_preference r s).2.user = s.user) ∧
    (∀ (e : String) (s : AgentState),
        framePreserved (confirm_trinity e s).2 s ∧
        (confirm_trinity e s).2.user = s.user) ∧
    (∀ (y : Int) (inds : List String) (s : AgentState),
        framePreserved (confirm_experience y inds s).2 s ∧
        (confirm_experience y inds s).2.user = s.user) ∧
    (∀ (l rp : String) (s : AgentState),
        framePreserved (confirm_location l rp s).2 s ∧
        (confirm_location l rp s).2.user = s.user) ∧
    (∀ (tc : Option String) (av : String) (s : AgentState),
        framePreserved (confirm_search_prefs tc av s).2 s ∧
        (confirm_search_prefs tc av s).2.user = s.user) ∧
    (∀ (s : AgentState),
        framePreserved (complete_onboarding s).2 s ∧
        (complete_onboarding s).2.user =
          { s.user with profile_complete := true }) := by
  refine ⟨?_, ?_, ?_, ?_, ?_, ?_⟩
  · intro r s
    by_cases hv : pyStrip (pyLower r) ∈ VALID_ROLES <;>
      simp [framePreserved, confirm_role_preference, hv]
  · intro e s
    by_cases hv : pyStrip (pyLower e) ∈ VALID_TRINITY <;>
      simp [framePreserved, confirm_trinity, hv]
  · intro y inds s
    by_cases hv : y < 0 <;>
      simp [framePreserved, confirm_experience, hv]
  · intro l rp s
    by_cases hv : pyStrip (pyLower rp) ∈ VALID_REMOTE_PREFS <;>
      simp [framePreserved, confirm_location, hv]
  · intro tc av s
    simp [framePreserved, confirm_search_prefs]
  · intro s
    simp [framePreserved, complete_onboarding]

/-- Claim C10: complete_onboarding has no precondition: from any state,
including the initial one with every profile field unset, it succeeds,
reports onboarding_completed true, sets completed and current_step in the
state, and returns a profile summary assembled from the current onboarding
field values. -/
theorem C10_complete_unconditional (s : AgentState) :
    (complete_onboarding s).1.success = true ∧
    (complete_onboarding s).1.onboarding_completed = some true ∧
    (complete_onboarding s).2.onboarding.completed = true ∧
    (complete_onboarding s).2.onboarding.current_step =
      OnboardingStep.completed ∧
    (complete_onboarding s).1.profile_summary = some
      { role := s.onboarding.role_preference
        engagement_type := s.onboarding.trinity
        experience_years := s.onboarding.years_experience
        experience_industries := s.onboarding.industries
        location_base := s.onboarding.location
        location_remote_preference := s.onboarding.remote_preference
        search_compensation := s.onboarding.target_compensation
        search_availability := s.onboarding.availability } := by
  simp [complete_onboarding]
